import Mathlib

/-!
Verification of the poll-dedup-match-dispatch engine of the
twitch-category-to-discord-webhook-notifier repository.

The definitions below are a shallow embedding of the TypeScript source:

* the record types mirror lambda/src/types.ts (ISO timestamp strings are
  modelled as natural-number epoch milliseconds, number fields as Nat);
* the per-item body of the discovery loop mirrors
  lambda/src/handlers/scheduled.ts (the loop over streams, lines 34-99);
* the store operations mirror the DatabaseService methods of
  lambda/src/services/database.ts (updateNotificationSuccess,
  updateNotificationFailure, cleanupFailedConfigs, deleteNotificationConfig,
  getNotificationConfigsByGameId, incrementNotificationCounter), with a
  DynamoDB table modelled as a list of records and PutCommand as an upsert
  keyed by (pk, sk);
* the constants mirror lambda/src/config.ts (cleanup section).

Externally visible effects of one per-item step (marker writes, delivery
attempts, per-config counter updates) are recorded as an explicit action
trace so that ordering and absence properties can be stated.
-/

namespace TwitchNotifier

/-- Mirror of the NotificationConfig interface in types.ts.  Timestamps are
epoch milliseconds; optional fields are Option. -/
structure NotificationConfig where
  pk : String
  sk : String
  webhook_url : String
  game_id : String
  game_name : String
  required_tags : Option (List String)
  required_language : Option String
  minimum_viewers : Option Nat
  created_at : Nat
  last_success : Option Nat
  failure_count : Nat
  updated_at : Nat
deriving DecidableEq, Repr

/-- Mirror of the TwitchStream interface in types.ts (fields the engine
reads). -/
structure TwitchStream where
  id : String
  user_id : String
  user_login : String
  user_name : String
  game_id : String
  game_name : String
  title : String
  viewer_count : Nat
  started_at : String
  language : String
  thumbnail_url : String
  tags : List String
deriving DecidableEq, Repr

/-- Mirror of the DiscoveredStream interface in types.ts.  discovered_at is
epoch milliseconds; ttl is epoch seconds, as in the source. -/
structure DiscoveredStream where
  stream_id : String
  user_id : String
  game_id : String
  discovered_at : Nat
  ttl : Nat
deriving DecidableEq, Repr

/-- config.cleanup.streamTtlDays in config.ts. -/
def streamTtlDays : Nat := 7

/-- config.cleanup.maxFailureCount in config.ts. -/
def maxFailureCount : Nat := 10

/-- config.cleanup.failureTimeoutDays in config.ts. -/
def failureTimeoutDays : Nat := 7

/-- Milliseconds in one day: the cleanup cutoff arithmetic
(cutoffDate.setDate(cutoffDate.getDate() - failureTimeoutDays)) in UTC. -/
def msPerDay : Nat := 86400000

/-- The notification-config table, as scanned by
DatabaseService.getNotificationConfigs. -/
abbrev Store := List NotificationConfig

/-- The DynamoDB primary-key test (pk, sk) used by the DatabaseService
lookups. -/
def keyMatches (pk sk : String) (c : NotificationConfig) : Bool :=
  c.pk == pk && c.sk == sk

/-- PutCommand on the notification-config table: upsert keyed by (pk, sk). -/
def putItem (store : Store) (item : NotificationConfig) : Store :=
  if store.any (keyMatches item.pk item.sk) then
    store.map (fun c => if keyMatches item.pk item.sk c then item else c)
  else
    store ++ [item]

/-- DatabaseService.updateNotificationSuccess: look the config up by key;
if present, put it back with last_success and updated_at set to now and
failure_count reset to 0; if absent, do nothing. -/
def updateNotificationSuccess (store : Store) (pk sk : String) (now : Nat) : Store :=
  match store.find? (keyMatches pk sk) with
  | none => store
  | some existing =>
      putItem store
        { existing with last_success := some now, failure_count := 0, updated_at := now }

/-- DatabaseService.updateNotificationFailure: look the config up by key;
if present, put it back with failure_count incremented and updated_at set
to now; if absent, do nothing. -/
def updateNotificationFailure (store : Store) (pk sk : String) (now : Nat) : Store :=
  match store.find? (keyMatches pk sk) with
  | none => store
  | some existing =>
      putItem store
        { existing with failure_count := existing.failure_count + 1, updated_at := now }

/-- DatabaseService.deleteNotificationConfig: DeleteCommand by (pk, sk). -/
def deleteNotificationConfig (store : Store) (pk sk : String) : Store :=
  store.filter (fun c => !(keyMatches pk sk c))

/-- DatabaseService.getNotificationConfigsByGameId: scan plus filter on
game_id. -/
def getNotificationConfigsByGameId (store : Store) (gameId : String) : List NotificationConfig :=
  store.filter (fun c => c.game_id == gameId)

/-- The effective minimum-viewer threshold of the eligibility loop in
scheduled.ts: notificationConfig.minimum_viewers with a JavaScript
falsy-or fallback of 1 (absent, and the falsy value 0, both give 1). -/
def effectiveMinViewers (c : NotificationConfig) : Nat :=
  match c.minimum_viewers with
  | none => 1
  | some v => if v = 0 then 1 else v

/-- The minimum-viewers gate of the eligibility loop: the config survives
unless stream.viewer_count < minViewers. -/
def minViewersPass (s : TwitchStream) (c : NotificationConfig) : Bool :=
  !(s.viewer_count < effectiveMinViewers c : Bool)

/-- Model of JavaScript String.prototype.toLowerCase: lowercase the string
character by character. -/
def lowerString (s : String) : String :=
  ⟨s.data.map Char.toLower⟩

/-- One required tag is satisfied when some stream tag equals it after
toLowerCase on both sides. -/
def tagMatchesStream (s : TwitchStream) (requiredTag : String) : Bool :=
  s.tags.any (fun streamTag => lowerString streamTag == lowerString requiredTag)

/-- The required-tags gate of the eligibility loop: checked only when
required_tags is present and non-empty, and then every required tag must
match some stream tag case-insensitively. -/
def tagsPass (s : TwitchStream) (c : NotificationConfig) : Bool :=
  match c.required_tags with
  | none => true
  | some tags => if 0 < tags.length then tags.all (tagMatchesStream s) else true

/-- The whole per-config eligibility test of the loop body in scheduled.ts
(lines 46-68): the config is pushed onto eligibleConfigs exactly when it
passes the minimum-viewers gate and the required-tags gate.  The source
contains no further gate; in particular required_language is never read. -/
def configEligible (s : TwitchStream) (c : NotificationConfig) : Bool :=
  minViewersPass s c && tagsPass s c

/-- Externally visible effects of one per-item step of the discovery loop,
in the order the source performs them: the config fetch for the item's
category, the DiscoveredStream marker write, one Discord delivery attempt
per eligible config, the per-config success/failure record update, and
(present in the action alphabet so its absence can be stated) a
DailyCounter increment. -/
inductive Action where
  | fetchConfigs (gameId : String)
  | writeMarker (m : DiscoveredStream)
  | deliver (pk sk webhook : String)
  | updateSuccess (pk sk : String)
  | updateFailure (pk sk : String)
  | incrementCounter (success : Bool)
deriving DecidableEq, Repr

/-- Recognizer for marker writes in a trace. -/
def isMarkerAction : Action → Bool
  | .writeMarker _ => true
  | _ => false

/-- Recognizer for delivery attempts in a trace. -/
def isDeliverAction : Action → Bool
  | .deliver _ _ _ => true
  | _ => false

/-- Recognizer for DailyCounter increments in a trace. -/
def isCounterAction : Action → Bool
  | .incrementCounter _ => true
  | _ => false

/-- Projection extracting the addressed (pk, sk, webhook_url) of a delivery
attempt. -/
def deliverOf : Action → Option (String × String × String)
  | .deliver pk sk w => some (pk, sk, w)
  | _ => none

/-- Result of the dispatch loop over eligibleConfigs: its trace, the
notification-config table afterwards, and the two counters the handler
tallies. -/
structure DeliveryResult where
  actions : List Action
  store : Store
  sent : Nat
  failed : Nat
deriving DecidableEq, Repr

/-- The dispatch loop of scheduled.ts (lines 83-94): one try/catch per
eligible config.  The outcome oracle sendOk models whether
discord.sendNotification resolves or throws for that config; on success
the config record gets the success update, on failure the failure update,
and in either case the loop continues with the next config. -/
def deliveryLoop (sendOk : NotificationConfig → Bool) (now : Nat) :
    List NotificationConfig → Store → DeliveryResult
  | [], store => ⟨[], store, 0, 0⟩
  | c :: rest, store =>
    if sendOk c then
      let r := deliveryLoop sendOk now rest (updateNotificationSuccess store c.pk c.sk now)
      ⟨Action.deliver c.pk c.sk c.webhook_url :: Action.updateSuccess c.pk c.sk :: r.actions,
       r.store, r.sent + 1, r.failed⟩
    else
      let r := deliveryLoop sendOk now rest (updateNotificationFailure store c.pk c.sk now)
      ⟨Action.deliver c.pk c.sk c.webhook_url :: Action.updateFailure c.pk c.sk :: r.actions,
       r.store, r.sent, r.failed + 1⟩

/-- Result of processing one live stream: its trace, the
notification-config table afterwards, and the handler's three tallies. -/
structure ItemResult where
  actions : List Action
  store : Store
  newStreams : Nat
  sent : Nat
  failed : Nat
deriving DecidableEq, Repr

/-- The body of the per-stream loop of scheduled.ts (lines 34-99).
discovered models db.isStreamDiscovered; now is Date.now() in epoch
milliseconds.  If the stream is already discovered the body does nothing.
Otherwise it fetches the configs for the stream's category, filters them
through the eligibility test, and, only when at least one config is
eligible, writes the DiscoveredStream marker (ttl in epoch seconds:
floor(now / 1000) plus streamTtlDays days) and then runs the dispatch
loop. -/
def processStream (discovered : String → Bool) (sendOk : NotificationConfig → Bool)
    (now : Nat) (store : Store) (s : TwitchStream) : ItemResult :=
  if discovered s.id then
    ⟨[], store, 0, 0, 0⟩
  else
    let configs := getNotificationConfigsByGameId store s.game_id
    let eligibleConfigs := configs.filter (configEligible s)
    if eligibleConfigs.isEmpty then
      ⟨[Action.fetchConfigs s.game_id], store, 0, 0, 0⟩
    else
      let marker : DiscoveredStream :=
        { stream_id := s.id, user_id := s.user_id, game_id := s.game_id,
          discovered_at := now, ttl := now / 1000 + streamTtlDays * 24 * 60 * 60 }
      let r := deliveryLoop sendOk now eligibleConfigs store
      ⟨Action.fetchConfigs s.game_id :: Action.writeMarker marker :: r.actions,
       r.store, 1, r.sent, r.failed⟩

/-- The deletion test of DatabaseService.cleanupFailedConfigs: failure
count at or above the maximum, and (no last_success ever, or last_success
strictly before the cutoff). -/
def shouldCleanup (cutoff : Nat) (c : NotificationConfig) : Bool :=
  if maxFailureCount ≤ c.failure_count then
    match c.last_success with
    | none => true
    | some t => decide (t < cutoff)
  else false

/-- The deletion pass of cleanupFailedConfigs: iterate over the scanned
snapshot, deleting each config that satisfies the test from the table by
key. -/
def cleanupLoop (cutoff : Nat) : List NotificationConfig → Store → Store
  | [], store => store
  | c :: rest, store =>
    if shouldCleanup cutoff c then
      cleanupLoop cutoff rest (deleteNotificationConfig store c.pk c.sk)
    else
      cleanupLoop cutoff rest store

/-- DatabaseService.cleanupFailedConfigs: scan the table, compute the
cutoff as now minus failureTimeoutDays days, and run the deletion pass
over the snapshot.  The source never reads created_at here. -/
def cleanupFailedConfigs (store : Store) (now : Nat) : Store :=
  cleanupLoop (now - failureTimeoutDays * msPerDay) store store

/-- A row of the DailyCounter store (kept in the same table under
pk = counter), as written by incrementNotificationCounter. -/
structure CounterRow where
  pk : String
  sk : String
  count : Nat
  updated_at : Nat
  ttl : Nat
deriving DecidableEq, Repr

/-- DatabaseService.incrementNotificationCounter: read the (kind, UTC date)
row, then put it back with count + 1 (count 1 when the row does not exist),
updated_at now and a 30-day ttl in epoch seconds.  today is the
YYYY-MM-DD date string. -/
def incrementNotificationCounter (rows : List CounterRow) (success : Bool)
    (today : String) (now : Nat) : List CounterRow :=
  let pk := "counter"
  let sk := (if success then "success#" else "failure#") ++ today
  let currentCount :=
    match rows.find? (fun r => r.pk == pk && r.sk == sk) with
    | some r => r.count
    | none => 0
  let newRow : CounterRow :=
    ⟨pk, sk, currentCount + 1, now, now / 1000 + 30 * 24 * 60 * 60⟩
  if rows.any (fun r => r.pk == pk && r.sk == sk) then
    rows.map (fun r => if r.pk == pk && r.sk == sk then newRow else r)
  else
    rows ++ [newRow]

/-! Concrete fixtures used by witnesses and counterexamples. -/

/-- A live stream in category g1, language fr, 5 viewers. -/
def streamFr : TwitchStream :=
  { id := "s1", user_id := "u1", user_login := "lg", user_name := "Nm",
    game_id := "g1", game_name := "G", title := "t", viewer_count := 5,
    started_at := "2026-01-01T00:00:00Z", language := "fr", thumbnail_url := "th",
    tags := ["English", "Ranked", "Competitive"] }

/-- A config for category g1 whose only filter is required_language en. -/
def cfgEn : NotificationConfig :=
  { pk := "webhook#a", sk := "config#1", webhook_url := "https://dsc/a",
    game_id := "g1", game_name := "G", required_tags := none,
    required_language := some "en", minimum_viewers := none,
    created_at := 0, last_success := none, failure_count := 0, updated_at := 0 }

/-- A config for category g1 with a minimum-viewers threshold of 10. -/
def cfgViewers : NotificationConfig :=
  { cfgEn with sk := "config#2", required_language := none, minimum_viewers := some 10 }

/-- A second unfiltered config for category g1, under a different webhook key. -/
def cfgB : NotificationConfig :=
  { cfgEn with pk := "webhook#b", sk := "config#3", webhook_url := "https://dsc/b", required_language := none }

/-- A delivery-outcome oracle under which only webhook b succeeds. -/
def sendOkB : NotificationConfig → Bool :=
  fun c => c.pk == "webhook#b"

/-- A cleanup-time instant: day 1000 in epoch milliseconds. -/
def cleanupNow : Nat := 1000 * msPerDay

/-- A config over the failure maximum that never delivered successfully and
was created at cleanup time itself. -/
def cfgFreshNoSuccess : NotificationConfig :=
  { cfgEn with sk := "config#4", failure_count := 10, created_at := cleanupNow }

/-- A config over the failure maximum whose last success was 6 days before
cleanup time. -/
def cfgSuccess6d : NotificationConfig :=
  { cfgEn with sk := "config#5", failure_count := 10, last_success := some (cleanupNow - 6 * msPerDay) }

/-! Helper lemmas about the store operations and the dispatch loop. -/

/-- A key test holds of the config itself. -/
lemma keyMatches_self (c : NotificationConfig) : keyMatches c.pk c.sk c = true := by
  simp [keyMatches]

/-- The key equalities extracted from a successful key test. -/
lemma keyMatches_eq {pk sk : String} {c : NotificationConfig}
    (h : keyMatches pk sk c = true) : c.pk = pk ∧ c.sk = sk := by
  simpa [keyMatches] using h

/-- putItem keeps any record whose key differs from the put item's key. -/
lemma mem_putItem_of_keyMismatch {store : Store} {item d : NotificationConfig}
    (hd : d ∈ store) (h : keyMatches item.pk item.sk d = false) :
    d ∈ putItem store item := by
  unfold putItem
  split
  · have : (fun c => if keyMatches item.pk item.sk c then item else c) d = d := by
      simp [h]
    exact this ▸ List.mem_map_of_mem _ hd
  · exact List.mem_append_left _ hd

/-- The success update keeps any record whose key differs from the
addressed key. -/
lemma mem_updateNotificationSuccess_of_keyMismatch {store : Store} {pk sk : String}
    {now : Nat} {d : NotificationConfig} (hd : d ∈ store)
    (h : keyMatches pk sk d = false) :
    d ∈ updateNotificationSuccess store pk sk now := by
  unfold updateNotificationSuccess
  cases hf : store.find? (keyMatches pk sk) with
  | none => exact hd
  | some existing =>
      have hkey := keyMatches_eq (List.find?_some hf)
      exact mem_putItem_of_keyMismatch hd (by simpa [hkey.1, hkey.2] using h)

/-- The failure update keeps any record whose key differs from the
addressed key. -/
lemma mem_updateNotificationFailure_of_keyMismatch {store : Store} {pk sk : String}
    {now : Nat} {d : NotificationConfig} (hd : d ∈ store)
    (h : keyMatches pk sk d = false) :
    d ∈ updateNotificationFailure store pk sk now := by
  unfold updateNotificationFailure
  cases hf : store.find? (keyMatches pk sk) with
  | none => exact hd
  | some existing =>
      have hkey := keyMatches_eq (List.find?_some hf)
      exact mem_putItem_of_keyMismatch hd (by simpa [hkey.1, hkey.2] using h)

/-- The success update never changes the number of records. -/
lemma length_updateNotificationSuccess (store : Store) (pk sk : String) (now : Nat) :
    (updateNotificationSuccess store pk sk now).length = store.length := by
  unfold updateNotificationSuccess
  cases hf : store.find? (keyMatches pk sk) with
  | none => rfl
  | some existing =>
      have hmem := List.mem_of_find?_eq_some hf
      have hp := List.find?_some hf
      have hkey := keyMatches_eq hp
      have hex : ∃ x ∈ store, keyMatches pk sk x = true := ⟨existing, hmem, hp⟩
      simp [putItem, hkey.1, hkey.2, hex]

/-- The failure update never changes the number of records. -/
lemma length_updateNotificationFailure (store : Store) (pk sk : String) (now : Nat) :
    (updateNotificationFailure store pk sk now).length = store.length := by
  unfold updateNotificationFailure
  cases hf : store.find? (keyMatches pk sk) with
  | none => rfl
  | some existing =>
      have hmem := List.mem_of_find?_eq_some hf
      have hp := List.find?_some hf
      have hkey := keyMatches_eq hp
      have hex : ∃ x ∈ store, keyMatches pk sk x = true := ⟨existing, hmem, hp⟩
      simp [putItem, hkey.1, hkey.2, hex]

/-- The dispatch loop records exactly one delivery attempt per eligible
config, addressed to that config, in order, whatever the outcomes are. -/
lemma deliveryLoop_deliver_trace (sendOk : NotificationConfig → Bool) (now : Nat) :
    ∀ (l : List NotificationConfig) (store : Store),
      (deliveryLoop sendOk now l store).actions.filterMap deliverOf
        = l.map (fun c => (c.pk, c.sk, c.webhook_url)) := by
  intro l
  induction l with
  | nil => intro store; simp [deliveryLoop]
  | cons c rest ih =>
      intro store
      by_cases hc : sendOk c = true
      · simp [deliveryLoop, hc, deliverOf, ih]
      · simp [deliveryLoop, hc, deliverOf, ih]

/-- The dispatch loop never writes markers and never touches the
DailyCounter store. -/
lemma deliveryLoop_no_marker_no_counter (sendOk : NotificationConfig → Bool) (now : Nat) :
    ∀ (l : List NotificationConfig) (store : Store) (a : Action),
      a ∈ (deliveryLoop sendOk now l store).actions →
        isMarkerAction a = false ∧ isCounterAction a = false := by
  intro l
  induction l with
  | nil => intro store a ha; simp [deliveryLoop] at ha
  | cons c rest ih =>
      intro store a ha
      by_cases hc : sendOk c = true
      · simp only [deliveryLoop, hc, if_true, List.mem_cons] at ha
        rcases ha with rfl | rfl | ha
        · exact ⟨rfl, rfl⟩
        · exact ⟨rfl, rfl⟩
        · exact ih _ a ha
      · simp only [deliveryLoop, hc, if_false, Bool.false_eq_true, List.mem_cons] at ha
        rcases ha with rfl | rfl | ha
        · exact ⟨rfl, rfl⟩
        · exact ⟨rfl, rfl⟩
        · exact ih _ a ha

/-- The dispatch loop preserves the number of config records. -/
lemma deliveryLoop_store_length (sendOk : NotificationConfig → Bool) (now : Nat) :
    ∀ (l : List NotificationConfig) (store : Store),
      (deliveryLoop sendOk now l store).store.length = store.length := by
  intro l
  induction l with
  | nil => intro store; rfl
  | cons c rest ih =>
      intro store
      by_cases hc : sendOk c = true
      · simp [deliveryLoop, hc, ih, length_updateNotificationSuccess]
      · simp [deliveryLoop, hc, ih, length_updateNotificationFailure]

/-- The dispatch loop keeps, unchanged, every record whose key is carried
by none of the configs it dispatches to. -/
lemma deliveryLoop_store_frame (sendOk : NotificationConfig → Bool) (now : Nat) :
    ∀ (l : List NotificationConfig) (store : Store) (d : NotificationConfig),
      d ∈ store → (∀ c ∈ l, keyMatches c.pk c.sk d = false) →
        d ∈ (deliveryLoop sendOk now l store).store := by
  intro l
  induction l with
  | nil => intro store d hd _; exact hd
  | cons c rest ih =>
      intro store d hd h
      by_cases hc : sendOk c = true
      · simp only [deliveryLoop, hc, if_pos]
        exact ih _ d
          (mem_updateNotificationSuccess_of_keyMismatch hd (h c (List.mem_cons_self c rest)))
          (fun e he => h e (List.mem_cons_of_mem c he))
      · simp only [deliveryLoop, hc, if_neg, Bool.false_eq_true, not_false_iff]
        exact ih _ d
          (mem_updateNotificationFailure_of_keyMismatch hd (h c (List.mem_cons_self c rest)))
          (fun e he => h e (List.mem_cons_of_mem c he))

/-- When the success update finds the addressed config, it maps the table:
every record under the addressed key becomes that config with last_success
and updated_at set to now and failure_count zero, and every other record
is left as it is. -/
lemma updateNotificationSuccess_found {store : Store} {pk sk : String} {now : Nat}
    {c : NotificationConfig} (h : store.find? (keyMatches pk sk) = some c) :
    updateNotificationSuccess store pk sk now
      = store.map (fun d => if keyMatches pk sk d then
          { c with last_success := some now, failure_count := 0, updated_at := now }
        else d) := by
  have hmem := List.mem_of_find?_eq_some h
  have hp := List.find?_some h
  have hkey := keyMatches_eq hp
  have hex : ∃ x ∈ store, keyMatches pk sk x = true := ⟨c, hmem, hp⟩
  unfold updateNotificationSuccess
  rw [h]
  simp [putItem, hkey.1, hkey.2, hex]

/-- When the failure update finds the addressed config, it maps the table:
every record under the addressed key becomes that config with
failure_count incremented and updated_at set to now, and every other
record is left as it is. -/
lemma updateNotificationFailure_found {store : Store} {pk sk : String} {now : Nat}
    {c : NotificationConfig} (h : store.find? (keyMatches pk sk) = some c) :
    updateNotificationFailure store pk sk now
      = store.map (fun d => if keyMatches pk sk d then
          { c with failure_count := c.failure_count + 1, updated_at := now }
        else d) := by
  have hmem := List.mem_of_find?_eq_some h
  have hp := List.find?_some h
  have hkey := keyMatches_eq hp
  have hex : ∃ x ∈ store, keyMatches pk sk x = true := ⟨c, hmem, hp⟩
  unfold updateNotificationFailure
  rw [h]
  simp [putItem, hkey.1, hkey.2, hex]

/-- Membership after the cleanup deletion pass: a record survives exactly
when it was in the table and no processed config that satisfies the
deletion test carries its key. -/
lemma mem_cleanupLoop (cutoff : Nat) :
    ∀ (l : List NotificationConfig) (store : Store) (x : NotificationConfig),
      x ∈ cleanupLoop cutoff l store
        ↔ x ∈ store ∧ ∀ d ∈ l, shouldCleanup cutoff d = true → keyMatches d.pk d.sk x = false := by
  intro l
  induction l with
  | nil => intro store x; simp [cleanupLoop]
  | cons d rest ih =>
      intro store x
      by_cases hd : shouldCleanup cutoff d = true
      · rw [show cleanupLoop cutoff (d :: rest) store
              = cleanupLoop cutoff rest (deleteNotificationConfig store d.pk d.sk) by
            simp [cleanupLoop, hd]]
        rw [ih]
        simp only [deleteNotificationConfig, List.mem_filter, List.mem_cons]
        constructor
        · rintro ⟨⟨hx, hk⟩, hrest⟩
          refine ⟨hx, ?_⟩
          intro e he hse
          rcases he with rfl | he
          · simpa using hk
          · exact hrest e he hse
        · rintro ⟨hx, hall⟩
          refine ⟨⟨hx, ?_⟩, ?_⟩
          · simpa using hall d (Or.inl rfl) hd
          · intro e he hse
            exact hall e (Or.inr he) hse
      · rw [show cleanupLoop cutoff (d :: rest) store = cleanupLoop cutoff rest store by
            simp [cleanupLoop, hd]]
        rw [ih]
        simp only [List.mem_cons]
        constructor
        · rintro ⟨hx, hrest⟩
          refine ⟨hx, ?_⟩
          intro e he hse
          rcases he with rfl | he
          · exact absurd hse hd
          · exact hrest e he hse
        · rintro ⟨hx, hall⟩
          exact ⟨hx, fun e he hse => hall e (Or.inr he) hse⟩

/-- In a table whose records carry pairwise distinct (pk, sk) keys, two
members with the same key are the same record. -/
lemma eq_of_mem_of_key_eq {store : Store}
    (hp : store.Pairwise (fun a b => ¬(a.pk = b.pk ∧ a.sk = b.sk)))
    {c d : NotificationConfig} (hc : c ∈ store) (hd : d ∈ store)
    (hpk : d.pk = c.pk) (hsk : d.sk = c.sk) : d = c := by
  induction store with
  | nil => cases hc
  | cons x xs ih =>
      rw [List.pairwise_cons] at hp
      rcases List.mem_cons.mp hc with hcx | hcm
      · rcases List.mem_cons.mp hd with hdx | hdm
        · rw [hdx, hcx]
        · subst hcx
          exact absurd ⟨hpk.symm, hsk.symm⟩ (hp.1 d hdm)
      · rcases List.mem_cons.mp hd with hdx | hdm
        · subst hdx
          exact absurd ⟨hpk, hsk⟩ (hp.1 c hcm)
        · exact ih hp.2 hcm hdm

/-- The deletion test of the cleanup pass, as a proposition: failure count
at or above the maximum, and no successful delivery ever or a last success
strictly before the cutoff. -/
lemma shouldCleanup_iff (cutoff : Nat) (c : NotificationConfig) :
    shouldCleanup cutoff c = true
      ↔ maxFailureCount ≤ c.failure_count
        ∧ (c.last_success = none ∨ ∃ t, c.last_success = some t ∧ t < cutoff) := by
  unfold shouldCleanup
  by_cases hf : maxFailureCount ≤ c.failure_count
  · cases hls : c.last_success with
    | none => simp [hf, hls]
    | some t => simp [hf, hls]
  · simp [hf]

/-! Claim theorems. -/

/-- Claim C1 (code bug): the specified required-language rule is absent from
the eligibility evaluation.  The handler never reads required_language, so a
config requiring language en is accepted for a live stream whose language is
fr (case-insensitively different), and a delivery is attempted for it. -/
theorem language_rule_missing_in_code :
    cfgEn.required_language = some "en"
    ∧ streamFr.language = "fr"
    ∧ lowerString streamFr.language ≠ lowerString "en"
    ∧ configEligible streamFr cfgEn = true
    ∧ (processStream (fun _ => false) (fun _ => true) 1728000000000
         [cfgEn] streamFr).actions.filterMap deliverOf
        = [(cfgEn.pk, cfgEn.sk, cfgEn.webhook_url)] := by
  exact ⟨rfl, rfl, by decide, by decide, by decide⟩

/-- Claim C3: a live item whose discovered marker already exists is skipped
entirely — the per-item step produces no actions at all (no config fetch,
no marker write, no delivery attempt) and leaves the config table unchanged,
whatever configs exist. -/
theorem discovered_item_skipped (discovered : String → Bool)
    (sendOk : NotificationConfig → Bool) (now : Nat) (store : Store)
    (s : TwitchStream) (h : discovered s.id = true) :
    processStream discovered sendOk now store s = ⟨[], store, 0, 0, 0⟩ := by
  simp [processStream, h]

/-- Witness for the C3 theorem at a concrete input. -/
theorem discovered_item_skipped_witness :
    ((fun _ : String => true) streamFr.id = true)
    ∧ processStream (fun _ => true) (fun _ => true) 5 [cfgEn] streamFr
        = ⟨[], [cfgEn], 0, 0, 0⟩ :=
  ⟨rfl, discovered_item_skipped (fun _ => true) (fun _ => true) 5 [cfgEn] streamFr rfl⟩

/-- Claim C5: an undiscovered live item with zero eligible configs produces
only the config fetch — no marker write, no delivery attempt — and leaves
the config table exactly as it was. -/
theorem no_eligible_config_leaves_state_unchanged (discovered : String → Bool)
    (sendOk : NotificationConfig → Bool) (now : Nat) (store : Store)
    (s : TwitchStream) (h1 : discovered s.id = false)
    (h2 : (getNotificationConfigsByGameId store s.game_id).filter (configEligible s) = []) :
    processStream discovered sendOk now store s
      = ⟨[Action.fetchConfigs s.game_id], store, 0, 0, 0⟩ := by
  simp [processStream, h1, h2]

/-- Witness for the C5 theorem at a concrete input: a 5-viewer stream
against a config demanding 10 viewers. -/
theorem no_eligible_config_leaves_state_unchanged_witness :
    ((fun _ : String => false) streamFr.id = false)
    ∧ (getNotificationConfigsByGameId [cfgViewers] streamFr.game_id).filter
        (configEligible streamFr) = []
    ∧ processStream (fun _ => false) (fun _ => true) 5 [cfgViewers] streamFr
        = ⟨[Action.fetchConfigs streamFr.game_id], [cfgViewers], 0, 0, 0⟩ :=
  ⟨rfl, by decide,
   no_eligible_config_leaves_state_unchanged (fun _ => false) (fun _ => true) 5
     [cfgViewers] streamFr rfl (by decide)⟩

/-- Claim C8: the minimum-viewers rule passes exactly when the viewer count
is at or above the effective threshold — the config's minimum_viewers when
set, and 1 when unset — for every config whose stored threshold is positive
(the subscription API stores minimum_viewers only when it is above 1). -/
theorem minimum_viewers_rule (s : TwitchStream) (c : NotificationConfig)
    (h : ∀ v, c.minimum_viewers = some v → 0 < v) :
    minViewersPass s c = true ↔ c.minimum_viewers.getD 1 ≤ s.viewer_count := by
  cases hm : c.minimum_viewers with
  | none => simp [minViewersPass, effectiveMinViewers, hm, Nat.not_lt, Nat.one_le_iff_ne_zero]
  | some v =>
      have hv := h v hm
      simp [minViewersPass, effectiveMinViewers, hm, hv.ne', Nat.not_lt]

/-- Witness for the C8 theorem at a concrete input: threshold 10 against a
5-viewer stream. -/
theorem minimum_viewers_rule_witness :
    (∀ v, cfgViewers.minimum_viewers = some v → 0 < v)
    ∧ (minViewersPass streamFr cfgViewers = true
        ↔ cfgViewers.minimum_viewers.getD 1 ≤ streamFr.viewer_count) := by
  have h : ∀ v, cfgViewers.minimum_viewers = some v → 0 < v := by
    intro v hv
    have h10 : (10 : Nat) = v := by simpa [cfgViewers, cfgEn] using hv
    omega
  exact ⟨h, minimum_viewers_rule streamFr cfgViewers h⟩

/-- Claim C9: the required-tags rule passes exactly when every required tag
(none at all when the list is absent or empty) equals some stream tag after
lowercasing both sides. -/
theorem required_tags_rule (s : TwitchStream) (c : NotificationConfig) :
    tagsPass s c = true
      ↔ ∀ t ∈ c.required_tags.getD [], ∃ u ∈ s.tags, lowerString u = lowerString t := by
  cases hm : c.required_tags with
  | none => simp [tagsPass, hm]
  | some ts =>
      cases ts with
      | nil => simp [tagsPass, hm]
      | cons a l =>
          simp [tagsPass, hm, tagMatchesStream, List.all_eq_true, List.any_eq_true]

/-- Claim C10: recording a delivery outcome for a (pk, sk) identity that no
stored config carries is a no-op for both the success update and the
failure update: the table is returned exactly as it was. -/
theorem update_on_missing_config_is_noop (store : Store) (pk sk : String) (now : Nat)
    (h : ∀ c ∈ store, keyMatches pk sk c = false) :
    updateNotificationSuccess store pk sk now = store
    ∧ updateNotificationFailure store pk sk now = store := by
  have hf : store.find? (keyMatches pk sk) = none :=
    List.find?_eq_none.mpr (fun c hc => by simp [h c hc])
  constructor
  · unfold updateNotificationSuccess
    rw [hf]
  · unfold updateNotificationFailure
    rw [hf]

/-- Witness for the C10 theorem at a concrete input: a key present in no
record of a one-config table. -/
theorem update_on_missing_config_is_noop_witness :
    (∀ c ∈ [cfgEn], keyMatches "webhook#zz" "config#zz" c = false)
    ∧ updateNotificationSuccess [cfgEn] "webhook#zz" "config#zz" 5 = [cfgEn]
    ∧ updateNotificationFailure [cfgEn] "webhook#zz" "config#zz" 5 = [cfgEn] := by
  have h := update_on_missing_config_is_noop [cfgEn] "webhook#zz" "config#zz" 5 (by decide)
  exact ⟨by decide, h.1, h.2⟩

/-- Claim C4: for an undiscovered item with at least one eligible config,
the per-item step writes exactly one discovered marker — carrying the
item's id and a ttl of the discovery time plus streamTtlDays days — and
that write strictly precedes every delivery attempt in the trace. -/
theorem marker_precedes_deliveries (discovered : String → Bool)
    (sendOk : NotificationConfig → Bool) (now : Nat) (store : Store) (s : TwitchStream)
    (h1 : discovered s.id = false)
    (h2 : (getNotificationConfigsByGameId store s.game_id).filter (configEligible s) ≠ []) :
    (processStream discovered sendOk now store s).actions.filter isMarkerAction
      = [Action.writeMarker
           ⟨s.id, s.user_id, s.game_id, now, now / 1000 + streamTtlDays * 24 * 60 * 60⟩]
    ∧ ∀ i j a b,
        (processStream discovered sendOk now store s).actions.get? i = some a →
        isMarkerAction a = true →
        (processStream discovered sendOk now store s).actions.get? j = some b →
        isDeliverAction b = true → i < j := by
  rcases hE : (getNotificationConfigsByGameId store s.game_id).filter (configEligible s)
    with _ | ⟨c, cs⟩
  · exact absurd hE h2
  · have hacts : (processStream discovered sendOk now store s).actions
        = Action.fetchConfigs s.game_id
          :: Action.writeMarker
               ⟨s.id, s.user_id, s.game_id, now, now / 1000 + streamTtlDays * 24 * 60 * 60⟩
          :: (deliveryLoop sendOk now (c :: cs) store).actions := by
      simp [processStream, h1, hE]
    constructor
    · rw [hacts]
      have hnm : (deliveryLoop sendOk now (c :: cs) store).actions.filter isMarkerAction = [] :=
        List.filter_eq_nil_iff.mpr (fun a ha => by
          simp [(deliveryLoop_no_marker_no_counter sendOk now (c :: cs) store a ha).1])
      simp [isMarkerAction, hnm]
    · intro i j a b hi hma hj hdb
      rw [hacts] at hi hj
      rcases i with _ | _ | n
      · rw [List.get?_cons_zero] at hi
        cases hi
        simp [isMarkerAction] at hma
      · rcases j with _ | _ | m
        · rw [List.get?_cons_zero] at hj
          cases hj
          simp [isDeliverAction] at hdb
        · rw [List.get?_cons_succ, List.get?_cons_zero] at hj
          cases hj
          simp [isDeliverAction] at hdb
        · omega
      · rw [List.get?_cons_succ, List.get?_cons_succ] at hi
        have ha := List.get?_mem hi
        have hnm := (deliveryLoop_no_marker_no_counter sendOk now (c :: cs) store a ha).1
        rw [hma] at hnm
        cases hnm

/-- Witness for the C4 theorem at a concrete input. -/
theorem marker_precedes_deliveries_witness :
    ((fun _ : String => false) streamFr.id = false)
    ∧ (getNotificationConfigsByGameId [cfgEn] streamFr.game_id).filter
        (configEligible streamFr) ≠ []
    ∧ (processStream (fun _ => false) (fun _ => true) 1728000000000
         [cfgEn] streamFr).actions.filter isMarkerAction
        = [Action.writeMarker
             ⟨streamFr.id, streamFr.user_id, streamFr.game_id, 1728000000000,
              1728000000000 / 1000 + streamTtlDays * 24 * 60 * 60⟩] :=
  ⟨rfl, by decide,
   (marker_precedes_deliveries (fun _ => false) (fun _ => true) 1728000000000
      [cfgEn] streamFr rfl (by decide)).1⟩

/-- Claim C6: delivery attempts for distinct configs of the same item are
isolated.  The dispatch loop attempts exactly one delivery per eligible
config, in order, whatever each outcome is; it preserves the number of
config records and keeps, unchanged, every record whose key no eligible
config carries; and a single success (failure) update rewrites exactly the
records under the addressed key — setting last_success and resetting the
failure counter to zero (incrementing the failure counter and refreshing
updated_at) — leaving every other record as it was. -/
theorem delivery_outcomes_isolated (sendOk : NotificationConfig → Bool) (now : Nat)
    (eligible : List NotificationConfig) (store : Store) :
    ((deliveryLoop sendOk now eligible store).actions.filterMap deliverOf
       = eligible.map (fun c => (c.pk, c.sk, c.webhook_url)))
    ∧ ((deliveryLoop sendOk now eligible store).store.length = store.length)
    ∧ (∀ d ∈ store, (∀ c ∈ eligible, keyMatches c.pk c.sk d = false) →
          d ∈ (deliveryLoop sendOk now eligible store).store)
    ∧ (∀ (pk sk : String) (c : NotificationConfig),
          store.find? (keyMatches pk sk) = some c →
          updateNotificationSuccess store pk sk now
            = store.map (fun d => if keyMatches pk sk d then
                { c with last_success := some now, failure_count := 0, updated_at := now }
              else d))
    ∧ (∀ (pk sk : String) (c : NotificationConfig),
          store.find? (keyMatches pk sk) = some c →
          updateNotificationFailure store pk sk now
            = store.map (fun d => if keyMatches pk sk d then
                { c with failure_count := c.failure_count + 1, updated_at := now }
              else d)) := by
  refine ⟨deliveryLoop_deliver_trace sendOk now eligible store,
          deliveryLoop_store_length sendOk now eligible store,
          fun d hd h => deliveryLoop_store_frame sendOk now eligible store d hd h,
          fun pk sk c h => updateNotificationSuccess_found h,
          fun pk sk c h => updateNotificationFailure_found h⟩

/-- Witness for the C6 theorem at a concrete input: config a fails, config
b still gets its attempt; the failure update addressed to config a's key
rewrites only that record. -/
theorem delivery_outcomes_isolated_witness :
    ((deliveryLoop sendOkB 7 [cfgEn, cfgB] [cfgEn, cfgB]).actions.filterMap deliverOf
       = [cfgEn, cfgB].map (fun c => (c.pk, c.sk, c.webhook_url)))
    ∧ ([cfgEn, cfgB].find? (keyMatches cfgEn.pk cfgEn.sk) = some cfgEn)
    ∧ (updateNotificationFailure [cfgEn, cfgB] cfgEn.pk cfgEn.sk 7
        = [cfgEn, cfgB].map (fun d => if keyMatches cfgEn.pk cfgEn.sk d then
            { cfgEn with failure_count := cfgEn.failure_count + 1, updated_at := 7 }
          else d)) :=
  ⟨(delivery_outcomes_isolated sendOkB 7 [cfgEn, cfgB] [cfgEn, cfgB]).1,
   by decide,
   (delivery_outcomes_isolated sendOkB 7 [cfgEn, cfgB] [cfgEn, cfgB]).2.2.2.2
     cfgEn.pk cfgEn.sk cfgEn (by decide)⟩

/-- Counterexample to claim C2 as stated: a config over the failure
maximum that never delivered successfully and was created at cleanup time
itself — so its creation time is not older than the cutoff, and the claim
says it is retained — is removed by cleanupFailedConfigs, which never
consults created_at. -/
theorem cleanup_fresh_counterexample :
    maxFailureCount ≤ cfgFreshNoSuccess.failure_count
    ∧ cfgFreshNoSuccess.last_success = none
    ∧ cleanupNow - failureTimeoutDays * msPerDay ≤ cfgFreshNoSuccess.created_at
    ∧ cleanupFailedConfigs [cfgFreshNoSuccess] cleanupNow = [] := by
  exact ⟨by decide, rfl, by decide, by decide⟩

/-- Claim C2 amended: in a table with pairwise distinct (pk, sk) keys, the
cleanup cycle removes a config exactly when its failure counter is at or
above the maximum AND it either never had a successful delivery (whatever
its creation time) or its last success is strictly older than the
cutoff. -/
theorem cleanup_removes_iff (store : Store) (now : Nat)
    (hkeys : store.Pairwise (fun a b => ¬(a.pk = b.pk ∧ a.sk = b.sk)))
    (c : NotificationConfig) (hc : c ∈ store) :
    c ∈ cleanupFailedConfigs store now
      ↔ ¬(maxFailureCount ≤ c.failure_count
          ∧ (c.last_success = none
             ∨ ∃ t, c.last_success = some t ∧ t < now - failureTimeoutDays * msPerDay)) := by
  unfold cleanupFailedConfigs
  rw [mem_cleanupLoop, ← shouldCleanup_iff]
  constructor
  · rintro ⟨_, hall⟩ hbad
    have hk := hall c hc hbad
    rw [keyMatches_self] at hk
    cases hk
  · intro hgood
    refine ⟨hc, ?_⟩
    intro d hd hda
    cases hkmv : keyMatches d.pk d.sk c with
    | false => rfl
    | true =>
        have hkey := keyMatches_eq hkmv
        have hdc : d = c := eq_of_mem_of_key_eq hkeys hc hd hkey.1.symm hkey.2.symm
        rw [hdc] at hda
        exact absurd hda hgood

/-- Witness for the C2 amended theorem at a concrete input: failure count
10 with a last success 6 days before cleanup time is retained. -/
theorem cleanup_removes_iff_witness :
    ([cfgSuccess6d].Pairwise (fun a b => ¬(a.pk = b.pk ∧ a.sk = b.sk)))
    ∧ cfgSuccess6d ∈ [cfgSuccess6d]
    ∧ (cfgSuccess6d ∈ cleanupFailedConfigs [cfgSuccess6d] cleanupNow
        ↔ ¬(maxFailureCount ≤ cfgSuccess6d.failure_count
            ∧ (cfgSuccess6d.last_success = none
               ∨ ∃ t, cfgSuccess6d.last_success = some t
                   ∧ t < cleanupNow - failureTimeoutDays * msPerDay))) :=
  ⟨by simp, by simp,
   cleanup_removes_iff [cfgSuccess6d] cleanupNow (by simp) cfgSuccess6d (by simp)⟩

/-- Claim C7 (code bug): the discovery cycle never touches the DailyCounter
store.  At a concrete input the per-item step performs a delivery attempt
yet its trace contains no counter increment, even though the
incrementNotificationCounter the claim describes exists in the
DatabaseService — with exactly the increment-or-create behavior shown in
the last two conjuncts — and is never invoked by the handler. -/
theorem daily_counter_not_written_by_cycle :
    ((processStream (fun _ => false) (fun _ => true) 1728000000000
        [cfgB] streamFr).actions.filter isCounterAction = [])
    ∧ ((processStream (fun _ => false) (fun _ => true) 1728000000000
        [cfgB] streamFr).actions.filter isDeliverAction
        = [Action.deliver cfgB.pk cfgB.sk cfgB.webhook_url])
    ∧ (incrementNotificationCounter [] true "2026-01-01" 86400000
        = [⟨"counter", "success#2026-01-01", 1, 86400000, 2678400⟩])
    ∧ (incrementNotificationCounter
         [⟨"counter", "success#2026-01-01", 1, 86400000, 2678400⟩]
         true "2026-01-01" 90000000
        = [⟨"counter", "success#2026-01-01", 2, 90000000, 2682000⟩]) := by
  exact ⟨by decide, by decide, by decide, by decide⟩

end TwitchNotifier
